import Mathlib

/-!
# Verification of the `ramlfications` validator (`ramlfications/validate.py`)

This file is a shallow embedding of the rule-based RAML validator in
`ramlfications/validate.py`, together with theorems settling claims about
its behaviour.

Modelling conventions:
* Python exceptions are modelled with `Except PyError`; the distinct
  `PyError` constructors separate the validator's own
  `InvalidRamlFileError` from uncontrolled Python errors (`TypeError`,
  `AttributeError`, `IndexError`).
* A parsed YAML value is the inductive `Val`; Python truthiness is
  `truthyVal` / `truthyOptStr`.
* The configuration facade (`base_config.config`) is not part of the
  validator module. Modelled from the spec: `config.get(section, key)`
  returns a sequence of strings; every rule that consults it takes that
  sequence as an explicit `List String` parameter.
* `hasattr(obj, a)` probing is modelled by an `Option` field: the
  attribute is present exactly when the field is `some`.
* Apostrophes inside the original error messages are written `\x27`.
-/

/-- Python errors observable from the validator: the validator's own
`InvalidRamlFileError` plus the uncontrolled errors its code can hit. -/
inductive PyError where
  | invalidRaml : String → PyError
  | typeError : String → PyError
  | attributeError : String → PyError
  | indexError : PyError
deriving DecidableEq, Repr

/-- A parsed YAML/RAML value: `None`, a scalar string, a mapping
(insertion-ordered association list), or a sequence. -/
inductive Val where
  | vnone : Val
  | vstr : String → Val
  | vdict : List (String × Val) → Val
  | vlist : List Val → Val

instance : Inhabited Val := ⟨.vnone⟩

/-- Python truthiness of an optional string value (`None` and `""` are falsy). -/
def truthyOptStr : Option String → Bool
  | none => false
  | some s => !(s == "")

/-- Python truthiness of a `Val` (`None`, `""`, `{}`, `[]` are falsy). -/
def truthyVal : Val → Bool
  | .vnone => false
  | .vstr s => !(s == "")
  | .vdict es => !es.isEmpty
  | .vlist xs => !xs.isEmpty

/-- Is the value Python's `None`? (`v is None`.) -/
def isNoneVal : Val → Bool
  | .vnone => true
  | _ => false

/-- Python `d.get(k, dflt)`: on a mapping, look the key up with a default;
on anything else raise `AttributeError` (`.get` does not exist). -/
def pyGetD (d : Val) (k : String) (dflt : Val) : Except PyError Val :=
  match d with
  | .vdict es => .ok ((es.lookup k).getD dflt)
  | .vnone => .error (.attributeError "NoneType object has no attribute get")
  | _ => .error (.attributeError "object has no attribute get")

/-- Python `d.get(k)` (missing keys give `None`). -/
def pyGet (d : Val) (k : String) : Except PyError Val :=
  pyGetD d k .vnone

/-- Python `list(iterkeys(d))`: the keys of a mapping, in insertion order;
`AttributeError` on a non-mapping. -/
def valKeys : Val → Except PyError (List String)
  | .vdict es => .ok (es.map Prod.fst)
  | _ => .error (.attributeError "object has no attribute keys")

/-- Python `list(iteritems(d))`: the key/value pairs of a mapping, in
insertion order; `AttributeError` on a non-mapping. -/
def valItems : Val → Except PyError (List (String × Val))
  | .vdict es => .ok es
  | _ => .error (.attributeError "object has no attribute items")

/-- Python `v in names` where `names` is a list of strings: only a string
value can be a member, any other value compares unequal to every name. -/
def valInNames (v : Val) (names : List String) : Bool :=
  match v with
  | .vstr s => names.contains s
  | _ => false

/-- Substring test on character lists (Python's `needle in hay` for strings). -/
def listSub (needle : List Char) : List Char → Bool
  | [] => needle.isEmpty
  | c :: t => needle.isPrefixOf (c :: t) || listSub needle t

/-- Python's `needle in hay` substring containment on strings. -/
def strContains (hay needle : String) : Bool :=
  listSub needle.toList hay.toList

/-!
## The Document model

`__version`, `__media_type` and the gate read the root document through
`raml.get(key)`; the keys the embedded rules touch become `Option String`
fields (`none` = key absent, exactly `raml.get(key) is None`).
-/

/-- The parsed root document, restricted to the keys the embedded root-level
rules read (`raml.get('baseUri')`, `raml.get('version')`,
`raml.get('mediaType')`). -/
structure RamlDoc where
  baseUri : Option String
  version : Option String
  mediaType : Option String

/-!
## The validation gate (`validate` / `validate_property` decorators)

`validate` computes the enablement flag from `os.environ.get('RAML_VALIDATE')`
and `config.get('main', 'validate')`, runs the mapped rule when enabled
(its exception propagating), and then runs the wrapped construction
operation unconditionally, returning its value.
-/

/-- The decorator's enablement flag:
`validate = os.environ.get('RAML_VALIDATE') == '1'` and if not that,
`validate = config.get('main', 'validate') == 'True'`. -/
def gateEnabled (env : Option String) (cfgValidate : String) : Bool :=
  (env == some "1") || (cfgValidate == "True")

/-- The `validate` / `validate_property` wrapper: when the gate is enabled,
run the rule mapped to the wrapped operation (a raised error propagates),
then run the underlying operation and return its result unchanged. -/
def wrappedOp {σ α : Type} (env : Option String) (cfgValidate : String)
    (rule : σ → Except PyError Unit) (op : σ → α) (x : σ) : Except PyError α :=
  if gateEnabled env cfgValidate then
    match rule x with
    | .error e => .error e
    | .ok _ => .ok (op x)
  else
    .ok (op x)

/-!
## `__version`

```python
def __version(raml, *args, **kw):
    prod = args[0]
    v = raml.get('version')
    if prod and not v:
        raise InvalidRamlFileError(...)
    elif '{version}' in raml.get('baseUri') and not v:
        raise InvalidRamlFileError(...)
```
The `elif` evaluates `'{version}' in raml.get('baseUri')` first; when
`baseUri` is absent that is `'{version}' in None`, a `TypeError`.
-/

/-- The `__version` rule. -/
def versionRule (raml : RamlDoc) (prod : Bool) : Except PyError Unit :=
  let v := raml.version
  if prod && !truthyOptStr v then
    .error (.invalidRaml "RAML File does not define an API version.")
  else
    match raml.baseUri with
    | none => .error (.typeError "argument of type \x27NoneType\x27 is not iterable")
    | some b =>
      if strContains b "{version}" && !truthyOptStr v then
        .error (.invalidRaml
          "RAML File\x27s baseUri includes {version} parameter but no version is defined.")
      else
        .ok ()

/-- C1: with the environment flag not `"1"` and the persistent configuration
value anything other than `"True"`, the wrapped operation consults no rule
(even one failing on every input) and returns the underlying operation's
value; with the environment flag `"1"`, the rule runs regardless of the
configuration value. -/
theorem gate_env_and_config_behaviour {σ α : Type}
    (env : Option String) (cfg : String)
    (rule : σ → Except PyError Unit) (op : σ → α) (x : σ) :
    (env ≠ some "1" → cfg ≠ "True" → wrappedOp env cfg rule op x = .ok (op x)) ∧
    (∀ e, rule x = .error e → wrappedOp (some "1") cfg rule op x = .error e) ∧
    (rule x = .ok () → wrappedOp (some "1") cfg rule op x = .ok (op x)) := by
  refine ⟨fun henv hcfg => ?_, fun e he => ?_, fun hok => ?_⟩
  · have hgate : gateEnabled env cfg = false := by
      simp [gateEnabled, henv, hcfg]
    simp [wrappedOp, hgate]
  · simp [wrappedOp, gateEnabled, he]
  · simp [wrappedOp, gateEnabled, hok]

/-- Witness for C1: a concrete gate-off run skips an always-failing rule,
and a concrete forced-on run surfaces its error. -/
theorem gate_env_and_config_behaviour_witness :
    wrappedOp (σ := Nat) (α := Nat) none "False"
      (fun _ => .error (.invalidRaml "bad")) (fun n => n + 1) 41 = .ok 42 ∧
    wrappedOp (σ := Nat) (α := Nat) (some "1") "False"
      (fun _ => .error (.invalidRaml "bad")) (fun n => n + 1) 41 =
      .error (.invalidRaml "bad") := by
  refine ⟨?_, ?_⟩
  · exact (gate_env_and_config_behaviour none "False"
      (fun _ => .error (.invalidRaml "bad")) (fun n => n + 1) 41).1
      (by simp) (by simp)
  · exact (gate_env_and_config_behaviour (some "1") "False"
      (fun _ => .error (.invalidRaml "bad")) (fun n => n + 1) 41).2.1
      (.invalidRaml "bad") rfl

/-- C7: whenever `baseUri` contains the literal `{version}` and `version`
is absent, `__version` raises an `InvalidRamlFileError`, for either value
of the production flag. -/
theorem version_rule_raises_on_version_placeholder
    (d : RamlDoc) (prod : Bool) (b : String)
    (hb : d.baseUri = some b)
    (hsub : strContains b "{version}" = true)
    (hv : d.version = none) :
    ∃ m, versionRule d prod = .error (.invalidRaml m) := by
  cases prod
  · refine ⟨"RAML File\x27s baseUri includes {version} parameter but no version is defined.", ?_⟩
    simp [versionRule, hb, hv, hsub, truthyOptStr]
  · refine ⟨"RAML File does not define an API version.", ?_⟩
    simp [versionRule, hv, truthyOptStr]

/-- Witness for C7: a concrete document with `baseUri` containing
`{version}` and no `version` makes `__version` raise (production flag off). -/
theorem version_rule_raises_on_version_placeholder_witness :
    ∃ m, versionRule ⟨some "http://x.com/{version}", none, none⟩ false =
      .error (.invalidRaml m) :=
  version_rule_raises_on_version_placeholder
    ⟨some "http://x.com/{version}", none, none⟩ false "http://x.com/{version}"
    rfl (by decide) rfl

/-- C10: when `baseUri` is absent and the first branch does not fire
(production flag false, or `version` present), `__version` evaluates
`'{version}' in None` and dies with a `TypeError`, not the validator's
semantic error. -/
theorem version_rule_typeerror_without_baseuri
    (d : RamlDoc) (prod : Bool)
    (hb : d.baseUri = none)
    (h : prod = false ∨ truthyOptStr d.version = true) :
    versionRule d prod =
      .error (.typeError "argument of type \x27NoneType\x27 is not iterable") := by
  rcases h with h | h
  · subst h; simp [versionRule, hb]
  · simp [versionRule, hb, h]

/-- Witness for C10: a concrete document without `baseUri`, in
non-production mode, hits the `TypeError`. -/
theorem version_rule_typeerror_without_baseuri_witness :
    versionRule ⟨none, none, none⟩ false =
      .error (.typeError "argument of type \x27NoneType\x27 is not iterable") :=
  version_rule_typeerror_without_baseuri ⟨none, none, none⟩ false rfl (Or.inl rfl)

/-!
## Media-type checks (`__media_type`, `__check_media_type`)

Both use `re.search(r"application\/[A-Za-z.-0-1]*?(json|xml)", value)`.
The character class `[A-Za-z.-0-1]` contains the letters together with the
ranges `.`–`0` and `-`–`1`, i.e. exactly the characters `-./01`; `+` is not
in it. The lazy quantifier does not change whether a match exists, so the
search succeeds iff somewhere in the string `application/` is followed by
zero or more class characters and then `json` or `xml`.
-/

/-- A character of the regex class `[A-Za-z.-0-1]`: letters `A`–`Z` and
`a`–`z`, plus the union of the ranges `.`–`0` and `-`–`1`
(the characters `-`, `.`, `/`, `0`, `1`). -/
def mediaClassChar (c : Char) : Bool :=
  ('A' ≤ c && c ≤ 'Z') || ('a' ≤ c && c ≤ 'z') || ('-' ≤ c && c ≤ '1')

/-- Does `[A-Za-z.-0-1]*?(json|xml)` match a prefix of the list? True iff
some (possibly empty) run of class characters is followed by `json` or
`xml`. -/
def mediaTail : List Char → Bool
  | [] => false
  | c :: cs =>
    "json".toList.isPrefixOf (c :: cs) || "xml".toList.isPrefixOf (c :: cs) ||
      (mediaClassChar c && mediaTail cs)

/-- `re.search` for `application\/[A-Za-z.-0-1]*?(json|xml)`: tries the
pattern at every start position. -/
def mediaSearch : List Char → Bool
  | [] => false
  | c :: cs =>
    ("application/".toList.isPrefixOf (c :: cs) && mediaTail (List.drop 12 (c :: cs))) ||
      mediaSearch cs

/-- The root-level `__media_type` rule: when `mediaType` is (truthy and)
present, pass if it is in the configured exact-match set or the regex
search succeeds, otherwise raise. The configured set `mediaTypes` is
modelled from the spec: `config.get('defaults', 'media_types')` is a
sequence of strings (the configuration facade is outside this module). -/
def mediaTypeRule (mediaTypes : List String) (raml : RamlDoc) : Except PyError Unit :=
  match raml.mediaType with
  | none => .ok ()
  | some mt =>
    if mt == "" then .ok ()
    else if mediaTypes.contains mt then .ok ()
    else if mediaSearch mt.toList then .ok ()
    else .error (.invalidRaml ("Unsupported MIME Media Type: \x27" ++ mt ++ "\x27."))

/-- The body-specific `__check_media_type`: additionally lets the literal
tokens `schema` and `example` through before trying the regex. -/
def checkMediaType (mediaTypes : List String) (mt : String) : Except PyError Unit :=
  if mediaTypes.contains mt then .ok ()
  else if mt == "schema" || mt == "example" then .ok ()
  else if mediaSearch mt.toList then .ok ()
  else .error (.invalidRaml ("Unsupported MIME Media Type: \x27" ++ mt ++ "\x27."))

/-- Counterexample to C2: `application/vnd.api+json` does *not* match the
regex (`+` is outside the character class `[A-Za-z.-0-1]`), so with a
configured exact-match set that does not list it, the root media-type rule
rejects it instead of passing it "by pattern". -/
theorem media_type_vnd_api_json_counterexample :
    mediaSearch "application/vnd.api+json".toList = false ∧
    mediaTypeRule ["application/json", "text/html"]
        ⟨none, none, some "application/vnd.api+json"⟩ =
      .error (.invalidRaml
        "Unsupported MIME Media Type: \x27application/vnd.api+json\x27.") := by
  constructor
  · decide
  · rfl

/-- C2 (amended): `application/json` passes by pattern for every configured
set; `application/vnd.api+json` does not match the pattern and passes iff
it is in the configured exact-match set; `text/plain` fails whenever it is
not in the set; and the literal `schema` passes the body-specific variant
for every set, while the root-level rule rejects it whenever it is not in
the set. -/
theorem media_type_checks_amended (mts : List String) :
    (∀ d : RamlDoc, d.mediaType = some "application/json" →
      mediaTypeRule mts d = .ok ()) ∧
    (∀ d : RamlDoc, d.mediaType = some "application/vnd.api+json" →
      (mediaTypeRule mts d = .ok () ↔ "application/vnd.api+json" ∈ mts)) ∧
    (∀ d : RamlDoc, d.mediaType = some "text/plain" →
      "text/plain" ∉ mts →
      mediaTypeRule mts d =
        .error (.invalidRaml "Unsupported MIME Media Type: \x27text/plain\x27.")) ∧
    (checkMediaType mts "schema" = .ok ()) ∧
    (∀ d : RamlDoc, d.mediaType = some "schema" →
      "schema" ∉ mts →
      mediaTypeRule mts d =
        .error (.invalidRaml "Unsupported MIME Media Type: \x27schema\x27.")) := by
  refine ⟨?_, ?_, ?_, ?_, ?_⟩
  · intro d hd
    simp only [mediaTypeRule, hd]
    split
    · rfl
    · split
      · rfl
      · split
        · rfl
        · next h => exact absurd (by decide) h
  · intro d hd
    by_cases hmem : "application/vnd.api+json" ∈ mts
    · simp [mediaTypeRule, hd, hmem]
    · simp only [mediaTypeRule, hd]
      simp [hmem]
      decide
  · intro d hd hmem
    simp only [mediaTypeRule, hd]
    simp [hmem]
    decide
  · by_cases hmem : "schema" ∈ mts
    · simp [checkMediaType, hmem]
    · simp [checkMediaType, hmem]
  · intro d hd hmem
    simp only [mediaTypeRule, hd]
    simp [hmem]
    decide

/-- Witness for the amended C2, at the concrete configured set
`["application/json", "text/html"]`. -/
theorem media_type_checks_amended_witness :
    mediaTypeRule ["application/json", "text/html"] ⟨none, none, some "application/json"⟩ =
      .ok () ∧
    checkMediaType ["application/json", "text/html"] "schema" = .ok () ∧
    mediaTypeRule ["application/json", "text/html"] ⟨none, none, some "text/plain"⟩ =
      .error (.invalidRaml "Unsupported MIME Media Type: \x27text/plain\x27.") := by
  refine ⟨?_, ?_, ?_⟩
  · exact (media_type_checks_amended ["application/json", "text/html"]).1
      ⟨none, none, some "application/json"⟩ rfl
  · exact (media_type_checks_amended ["application/json", "text/html"]).2.2.2.1
  · exact (media_type_checks_amended ["application/json", "text/html"]).2.2.1
      ⟨none, none, some "text/plain"⟩ rfl (by simp)

/-!
## `__raml_header`

The source file is modelled as the list of its newline-separated lines
(the empty file is `[]`): `os.path.getsize(f) == 0` is `file = []`,
`r.readline().split('\n')[0]` is the head line, and `r.readlines()`
after it is the tail. `raml_def, version = raml_header.split()` unpacks
the whitespace-separated tokens of the first line and raises `ValueError`
— caught and turned into the header error — unless there are exactly two.
The valid-version collection is modelled from the spec:
`config.get('defaults', 'raml_versions')` is a sequence of strings,
passed as the `versions : List String` parameter.
-/

/-- Worker for `pySplitWs`: `cur` is the (reversed) token being read. -/
def wsTokensGo (cur : List Char) : List Char → List String
  | [] => if cur.isEmpty then [] else [⟨cur.reverse⟩]
  | c :: cs =>
    if c.isWhitespace then
      if cur.isEmpty then wsTokensGo [] cs
      else ⟨cur.reverse⟩ :: wsTokensGo [] cs
    else wsTokensGo (c :: cur) cs

/-- Python `line.split()`: split on whitespace runs, no empty tokens. -/
def pySplitWs (line : String) : List String :=
  wsTokensGo [] line.toList

/-- The `__raml_header` rule, on a file given as its list of lines. -/
def ramlHeader (versions : List String) (file : List String) : Except PyError Unit :=
  match file with
  | [] => .error (.invalidRaml "RAML File is empty")
  | first :: rest =>
    if first == "" then
      .error (.invalidRaml
        ("RAML header empty. Please make sure the first line " ++
         "of the file contains a valid RAML file definition."))
    else
      match pySplitWs first with
      | [ramlDef, version] =>
        if !(ramlDef == "#%RAML") then
          .error (.invalidRaml ("Not a valid RAML header: " ++ ramlDef ++ "."))
        else if !(versions.contains version) then
          .error (.invalidRaml ("Not a valid version of RAML: " ++ version ++ "."))
        else if rest.isEmpty then
          .error (.invalidRaml "No RAML data to parse.")
        else
          .ok ()
      | _ => .error (.invalidRaml ("Not a valid RAML header: " ++ first ++ "."))

/-- C4: the empty file raises "RAML File is empty"; a first line with a
single whitespace-separated token raises; a file `#%RAML 1.0` followed by
more content passes exactly when `"1.0"` is a configured version; and a
file holding only the header line raises "No RAML data to parse.". -/
theorem raml_header_cases (versions : List String) :
    (ramlHeader versions [] = .error (.invalidRaml "RAML File is empty")) ∧
    (∀ (line : String) (rest : List String), (pySplitWs line).length = 1 →
      ∃ m, ramlHeader versions (line :: rest) = .error (.invalidRaml m)) ∧
    (∀ rest : List String, rest ≠ [] →
      (ramlHeader versions ("#%RAML 1.0" :: rest) = .ok () ↔ "1.0" ∈ versions)) ∧
    ("1.0" ∈ versions →
      ramlHeader versions ["#%RAML 1.0"] =
        .error (.invalidRaml "No RAML data to parse.")) := by
  refine ⟨rfl, ?_, ?_, ?_⟩
  · intro line rest hlen
    have hne : (line == "") = false := by
      by_cases h : (line == "") = true
      · rw [eq_of_beq h] at hlen
        exact absurd hlen (by decide)
      · simpa using h
    match htoks : pySplitWs line with
    | [] => rw [htoks] at hlen; simp at hlen
    | [t] =>
      refine ⟨"Not a valid RAML header: " ++ line ++ ".", ?_⟩
      simp [ramlHeader, hne, htoks]
    | t₁ :: t₂ :: ts => rw [htoks] at hlen; simp at hlen
  · intro rest hrest
    have htoks : pySplitWs "#%RAML 1.0" = ["#%RAML", "1.0"] := by decide
    have hrest' : rest.isEmpty = false := by
      cases rest with
      | nil => exact absurd rfl hrest
      | cons a l => rfl
    by_cases hmem : "1.0" ∈ versions
    · have hc : versions.contains "1.0" = true := by simpa using hmem
      simp [ramlHeader, htoks, hc, hrest', hmem]
    · have hc : versions.contains "1.0" = false := by simpa using hmem
      simp [ramlHeader, htoks, hc, hmem]
  · intro hmem
    have htoks : pySplitWs "#%RAML 1.0" = ["#%RAML", "1.0"] := by decide
    have hc : versions.contains "1.0" = true := by simpa using hmem
    simp [ramlHeader, htoks, hc]
    exact hmem

/-- Witness for C4, at the concrete configured versions `["0.8", "1.0"]`
and the files of the spec's round-trip example. -/
theorem raml_header_cases_witness :
    ramlHeader ["0.8", "1.0"] [] = .error (.invalidRaml "RAML File is empty") ∧
    (∃ m, ramlHeader ["0.8", "1.0"] ["#%RAML"] = .error (.invalidRaml m)) ∧
    ramlHeader ["0.8", "1.0"] ["#%RAML 1.0", "title: X"] = .ok () ∧
    ramlHeader ["0.8", "1.0"] ["#%RAML 1.0"] =
      .error (.invalidRaml "No RAML data to parse.") := by
  refine ⟨(raml_header_cases ["0.8", "1.0"]).1, ?_, ?_, ?_⟩
  · exact (raml_header_cases ["0.8", "1.0"]).2.1 "#%RAML" [] (by decide)
  · exact ((raml_header_cases ["0.8", "1.0"]).2.2.1 ["title: X"]
      (by simp)).mpr (by simp)
  · exact (raml_header_cases ["0.8", "1.0"]).2.2.2 (by simp)

/-!
## Resource-like objects and the Root reference

A resource-like object (Resource / Trait / ResourceType view) carries
`data` (a raw mapping) plus, depending on its kind, the attributes
`method`, `orig_method` (an `Option` field is `some` exactly when
`hasattr` holds), `name`, and — for a constructed Resource — the resolved
`type` attribute. The Root reference exposes the declared resource types,
each with a `name`.
-/

/-- A declared resource type on the root (`r.name` is all the rules read). -/
structure RTypeDecl where
  name : String

/-- A declared security scheme on the root (`r.name` is all the rules read). -/
structure SchemeDecl where
  name : String

/-- The in-progress object-model root (`args[0]` of the property rules). -/
structure RootRef where
  resourceTypes : List RTypeDecl
  securitySchemes : List SchemeDecl

/-- A resource-like object under validation. -/
structure ResourceLike where
  origMethod : Option String
  method : Option String
  name : String
  type : Val
  data : Val

/-- The declared resource-type names: `[r.name for r in root.resource_types]`. -/
def rtNames (root : RootRef) : List String :=
  root.resourceTypes.map RTypeDecl.name

/-- `"Too many resource types applied to '{0}'."` -/
def tooManyMsg (n : String) : String :=
  "Too many resource types applied to \x27" ++ n ++ "\x27."

/-- `"'{0}' is not defined in resourceTypes"` -/
def notDefinedMsg (s : String) : String :=
  "\x27" ++ s ++ "\x27 is not defined in resourceTypes"

/-- Python `"{0}".format(v)` restricted to the shapes reaching messages. -/
def valFormat : Val → String
  | .vnone => "None"
  | .vstr s => s
  | .vdict _ => "(mapping)"
  | .vlist _ => "(sequence)"

/-- The name-resolution step shared by `__set_type` / `__resource_type`:
a mapping contributes its first key, a sequence its first element, and a
scalar stands for itself. (Here the mapping/sequence is non-empty — a
falsy value returned earlier and a longer one raised — so the defaults of
`headD` are unreachable.) -/
def assignedResolve (assigned : Val) : Val :=
  match assigned with
  | .vdict es => .vstr ((es.map Prod.fst).headD "")
  | .vlist xs => xs.headD .vnone
  | v => v

/-- The `__set_type` rule: validate the raw `type` assignment in
`resource.data` against the root's declared resource types. -/
def setTypeRule (r : ResourceLike) (root : RootRef) : Except PyError Unit :=
  match pyGet r.data "type" with
  | .error e => .error e
  | .ok assigned =>
    if !truthyVal assigned then .ok ()
    else
      let tooMany : Bool :=
        match assigned with
        | .vdict es => es.length > 1
        | .vlist xs => xs.length > 1
        | _ => false
      if tooMany then .error (.invalidRaml (tooManyMsg r.name))
      else
        let resolved := assignedResolve assigned
        if !(valInNames resolved (rtNames root)) then
          .error (.invalidRaml (notDefinedMsg (valFormat resolved)))
        else .ok ()

/-- The `__resource_type` rule: identical shape, applied to the resolved
`resource.type` attribute instead of the raw data value. -/
def resourceTypeRule (r : ResourceLike) (root : RootRef) : Except PyError Unit :=
  if !truthyVal r.type then .ok ()
  else
    let tooMany : Bool :=
      match r.type with
      | .vdict es => es.length > 1
      | .vlist xs => xs.length > 1
      | _ => false
    if tooMany then .error (.invalidRaml (tooManyMsg r.name))
    else
      let resolved := assignedResolve r.type
      if !(valInNames resolved (rtNames root)) then
        .error (.invalidRaml (notDefinedMsg (valFormat resolved)))
      else .ok ()

/-- C5: a single-entry mapping assignment `type: {N: …}` passes `__set_type`
iff the name `N` is among the root's declared resource-type names, and any
mapping or sequence assignment with two or more entries raises "Too many
resource types applied", for every root. -/
theorem set_type_assignment (root : RootRef)
    (om m : Option String) (nm : String) (ty : Val) (d : List (String × Val)) :
    (∀ (n : String) (v : Val), d.lookup "type" = some (.vdict [(n, v)]) →
      (setTypeRule ⟨om, m, nm, ty, .vdict d⟩ root = .ok () ↔ n ∈ rtNames root)) ∧
    (∀ es, d.lookup "type" = some (.vdict es) → 2 ≤ es.length →
      setTypeRule ⟨om, m, nm, ty, .vdict d⟩ root =
        .error (.invalidRaml (tooManyMsg nm))) ∧
    (∀ xs, d.lookup "type" = some (.vlist xs) → 2 ≤ xs.length →
      setTypeRule ⟨om, m, nm, ty, .vdict d⟩ root =
        .error (.invalidRaml (tooManyMsg nm))) := by
  refine ⟨?_, ?_, ?_⟩
  · intro n v hlk
    by_cases hmem : n ∈ rtNames root
    · have hc : (rtNames root).contains n = true := by simpa using hmem
      simp [setTypeRule, pyGet, pyGetD, hlk, truthyVal, assignedResolve,
        valInNames, hc, hmem]
    · have hc : (rtNames root).contains n = false := by simpa using hmem
      simp [setTypeRule, pyGet, pyGetD, hlk, truthyVal, assignedResolve,
        valInNames, hc, hmem]
  · intro es hlk hlen
    have hne : es.isEmpty = false := by
      cases es with
      | nil => simp at hlen
      | cons a l => rfl
    have hgt : decide (es.length > 1) = true := by
      simp only [decide_eq_true_eq]
      omega
    simp [setTypeRule, pyGet, pyGetD, hlk, truthyVal, hne, hgt]
  · intro xs hlk hlen
    have hne : xs.isEmpty = false := by
      cases xs with
      | nil => simp at hlen
      | cons a l => rfl
    have hgt : decide (xs.length > 1) = true := by
      simp only [decide_eq_true_eq]
      omega
    simp [setTypeRule, pyGet, pyGetD, hlk, truthyVal, hne, hgt]

/-- Witness for C5: with only `Collection` declared, `type: {Collection: {}}`
passes, `type: {Post: {}}` fails, and a two-element sequence raises
"Too many resource types applied". -/
theorem set_type_assignment_witness :
    setTypeRule ⟨none, none, "/res", .vnone, .vdict [("type", .vdict [("Collection", .vdict [])])]⟩
      ⟨[⟨"Collection"⟩], []⟩ = .ok () ∧
    setTypeRule ⟨none, none, "/res", .vnone, .vdict [("type", .vdict [("Post", .vdict [])])]⟩
      ⟨[⟨"Collection"⟩], []⟩ ≠ .ok () ∧
    setTypeRule ⟨none, none, "/res", .vnone,
        .vdict [("type", .vlist [.vstr "Collection", .vstr "Post"])]⟩
      ⟨[⟨"Collection"⟩], []⟩ =
      .error (.invalidRaml (tooManyMsg "/res")) := by
  refine ⟨?_, ?_, ?_⟩
  · exact ((set_type_assignment ⟨[⟨"Collection"⟩], []⟩ none none "/res" .vnone
      [("type", .vdict [("Collection", .vdict [])])]).1 "Collection" (.vdict [])
      rfl).mpr (by simp [rtNames])
  · intro h
    have := ((set_type_assignment ⟨[⟨"Collection"⟩], []⟩ none none "/res" .vnone
      [("type", .vdict [("Post", .vdict [])])]).1 "Post" (.vdict []) rfl).mp h
    simp [rtNames] at this
  · exact (set_type_assignment ⟨[⟨"Collection"⟩], []⟩ none none "/res" .vnone
      [("type", .vlist [.vstr "Collection", .vstr "Post"])]).2.2
      [.vstr "Collection", .vstr "Post"] rfl (by simp)

/-!
## `__primative_parameter`

```python
def __primative_parameter(parameter, *args, **kw):
    prim_type = list(itervalues(parameter))[0].get('type')
    if prim_type not in config.get('defaults', 'prim_types') and prim_type is not None:
        raise InvalidRamlFileError(...)
```
Only the first entry of the insertion-ordered mapping is inspected.
Indexing `[0]` on an empty mapping is an uncontrolled `IndexError`.
The valid-primitive-type collection is modelled from the spec:
`config.get('defaults', 'prim_types')` is a sequence of strings, passed
as the `primTypes` parameter.
-/

/-- The `__primative_parameter` check (the source's spelling is kept). -/
def primativeParameter (primTypes : List String)
    (parameter : List (String × Val)) : Except PyError Unit :=
  match parameter with
  | [] => .error .indexError
  | (_, v) :: _ =>
    match pyGet v "type" with
    | .error e => .error e
    | .ok primType =>
      if !(valInNames primType primTypes) && !(isNoneVal primType) then
        .error (.invalidRaml
          ("\x27" ++ valFormat primType ++ "\x27 is not a valid primative parameter type"))
      else .ok ()

/-- `isNoneVal` decides equality with `vnone`. -/
theorem isNoneVal_eq_vnone (t : Val) : isNoneVal t = true ↔ t = .vnone := by
  cases t <;> simp [isNoneVal]

/-- C6: the check looks only at the `type` of the first entry — the result
is unchanged by replacing everything after the first entry — and the first
entry passes iff its `type` is absent (`None`) or a configured primitive
type. -/
theorem primative_parameter_first_entry_only (primTypes : List String)
    (k : String) (es : List (String × Val)) (rest rest' : List (String × Val)) :
    (primativeParameter primTypes ((k, .vdict es) :: rest) =
      primativeParameter primTypes ((k, .vdict es) :: rest')) ∧
    (primativeParameter primTypes ((k, .vdict es) :: rest) = .ok () ↔
      ((es.lookup "type").getD .vnone = .vnone ∨
        valInNames ((es.lookup "type").getD .vnone) primTypes = true)) := by
  constructor
  · rfl
  · have hred : primativeParameter primTypes ((k, .vdict es) :: rest) =
      (if !(valInNames ((es.lookup "type").getD .vnone) primTypes) &&
          !(isNoneVal ((es.lookup "type").getD .vnone)) then
        .error (.invalidRaml
          ("\x27" ++ valFormat ((es.lookup "type").getD .vnone) ++
            "\x27 is not a valid primative parameter type"))
      else .ok ()) := rfl
    rw [hred]
    by_cases h1 : isNoneVal ((es.lookup "type").getD .vnone) = true
    · simp [h1, (isNoneVal_eq_vnone _).mp h1, isNoneVal]
    · by_cases h2 : valInNames ((es.lookup "type").getD .vnone) primTypes = true
      · simp [h1, h2]
      · have h1' : isNoneVal ((es.lookup "type").getD .vnone) = false := by
          simpa using h1
        have h2' : valInNames ((es.lookup "type").getD .vnone) primTypes = false := by
          simpa using h2
        simp only [h1', h2', Bool.not_false, Bool.and_self]
        constructor
        · intro h
          exact Except.noConfusion h
        · intro h
          rcases h with h | h
          · exact absurd ((isNoneVal_eq_vnone _).mpr h) (by simp [h1'])
          · exact absurd h (by simp [h2'])

/-- Witness for C6: a first entry typed `string` passes even when a later
entry is typed with an invalid type, with `primTypes = ["string"]`. -/
theorem primative_parameter_first_entry_only_witness :
    primativeParameter ["string"]
      [("page", .vdict [("type", .vstr "string")]),
       ("limit", .vdict [("type", .vstr "bogus")])] = .ok () := by
  exact ((primative_parameter_first_entry_only ["string"] "page"
      [("type", .vstr "string")]
      [("limit", .vdict [("type", .vstr "bogus")])]
      [("limit", .vdict [("type", .vstr "bogus")])]).2).mpr
    (Or.inr (by simp [valInNames]))

/-!
## `__security_settings`

Receives a Security Scheme object (`scheme.type`, `scheme.data`). If
`scheme.data.get('settings')` is falsy, pass. Otherwise take the settings
keys; `OAuth 2.0` schemes must list four keys, `OAuth 1.0` three, raising
on the first one missing; other types enforce nothing.
-/

/-- A Security Scheme object: its `type` attribute and raw `data` mapping. -/
structure SecurityScheme where
  type : String
  data : Val

/-- The required OAuth 2.0 settings keys, in the order checked. -/
def oauth2Attrs : List String :=
  ["authorizationUri", "accessTokenUri", "authorizationGrants", "scopes"]

/-- The required OAuth 1.0 settings keys, in the order checked. -/
def oauth1Attrs : List String :=
  ["requestTokenUri", "authorizationUri", "tokenCredentialsUri"]

/-- The message for a missing settings key (the source's grammar is kept). -/
def needDefinedMsg (attr ver : String) : String :=
  "Need to defined \x27" ++ attr ++ "\x27 in securitySchemas settings for a valid " ++
    ver ++ " scheme"

/-- Require each listed key to be present among `attrs`, raising on the
first one missing. -/
def requireAttrs (attrs : List String) (ver : String) : List String → Except PyError Unit
  | [] => .ok ()
  | a :: rest =>
    if attrs.contains a then requireAttrs attrs ver rest
    else .error (.invalidRaml (needDefinedMsg a ver))

/-- The `__security_settings` rule. -/
def securitySettings (scheme : SecurityScheme) : Except PyError Unit :=
  match pyGet scheme.data "settings" with
  | .error e => .error e
  | .ok settings =>
    if !truthyVal settings then .ok ()
    else
      match valKeys settings with
      | .error e => .error e
      | .ok attrs =>
        match (if scheme.type == "OAuth 2.0" then
                requireAttrs attrs "OAuth 2.0" oauth2Attrs
               else .ok ()) with
        | .error e => .error e
        | .ok _ =>
          if scheme.type == "OAuth 1.0" then
            requireAttrs attrs "OAuth 1.0" oauth1Attrs
          else .ok ()

/-- `requireAttrs` passes exactly when every required key is present. -/
theorem requireAttrs_ok_iff (attrs : List String) (ver : String) (req : List String) :
    requireAttrs attrs ver req = .ok () ↔ ∀ a ∈ req, a ∈ attrs := by
  induction req with
  | nil => simp [requireAttrs]
  | cons a rest ih =>
    by_cases h : a ∈ attrs
    · have hc : attrs.contains a = true := by simpa using h
      simp [requireAttrs, hc, ih, h]
    · have hc : attrs.contains a = false := by simpa using h
      simp [requireAttrs, hc, h]

/-- C8: a scheme whose `settings` is falsy passes trivially; an
`OAuth 2.0` scheme with (non-empty mapping) settings passes iff its keys
include `authorizationUri`, `accessTokenUri`, `authorizationGrants` and
`scopes`; an `OAuth 1.0` scheme iff they include `requestTokenUri`,
`authorizationUri` and `tokenCredentialsUri`; any other type never
raises. -/
theorem security_settings_required_keys (t : String) (d : List (String × Val)) :
    (truthyVal ((d.lookup "settings").getD .vnone) = false →
      securitySettings ⟨t, .vdict d⟩ = .ok ()) ∧
    (∀ es, d.lookup "settings" = some (.vdict es) → es.isEmpty = false →
      t = "OAuth 2.0" →
      (securitySettings ⟨t, .vdict d⟩ = .ok () ↔
        ∀ a ∈ oauth2Attrs, a ∈ es.map Prod.fst)) ∧
    (∀ es, d.lookup "settings" = some (.vdict es) → es.isEmpty = false →
      t = "OAuth 1.0" →
      (securitySettings ⟨t, .vdict d⟩ = .ok () ↔
        ∀ a ∈ oauth1Attrs, a ∈ es.map Prod.fst)) ∧
    (∀ es, d.lookup "settings" = some (.vdict es) →
      t ≠ "OAuth 2.0" → t ≠ "OAuth 1.0" →
      securitySettings ⟨t, .vdict d⟩ = .ok ()) := by
  refine ⟨?_, ?_, ?_, ?_⟩
  · intro h
    simp [securitySettings, pyGet, pyGetD, h]
  · intro es hlk hne ht
    subst ht
    simp only [securitySettings, pyGet, pyGetD, hlk, Option.getD_some,
      truthyVal, hne, Bool.not_false, if_true, valKeys]
    cases hra : requireAttrs (es.map Prod.fst) "OAuth 2.0" oauth2Attrs with
    | error e =>
      simp only [beq_self_eq_true, if_true, hra]
      constructor
      · intro h
        exact absurd h (by simp)
      · intro hall
        have := (requireAttrs_ok_iff (es.map Prod.fst) "OAuth 2.0" oauth2Attrs).mpr hall
        rw [hra] at this
        exact Except.noConfusion this
    | ok u =>
      have hall := (requireAttrs_ok_iff (es.map Prod.fst) "OAuth 2.0" oauth2Attrs).mp
        (by rw [hra])
      simp only [beq_self_eq_true, if_true, hra]
      have h1 : ("OAuth 2.0" == "OAuth 1.0") = false := by decide
      simp only [h1, Bool.false_eq_true, if_false]
      exact iff_of_true rfl hall
  · intro es hlk hne ht
    subst ht
    simp only [securitySettings, pyGet, pyGetD, hlk, Option.getD_some,
      truthyVal, hne, Bool.not_false, if_true, valKeys]
    have h2 : ("OAuth 1.0" == "OAuth 2.0") = false := by decide
    simp only [h2, Bool.false_eq_true, if_false, beq_self_eq_true, if_true]
    exact requireAttrs_ok_iff (es.map Prod.fst) "OAuth 1.0" oauth1Attrs
  · intro es hlk h2 h1
    have hb2 : (t == "OAuth 2.0") = false := by simpa using h2
    have hb1 : (t == "OAuth 1.0") = false := by simpa using h1
    by_cases hne : es.isEmpty = true
    · simp [securitySettings, pyGet, pyGetD, hlk, truthyVal, hne]
    · have hne' : es.isEmpty = false := by simpa using hne
      simp [securitySettings, pyGet, pyGetD, hlk, truthyVal, hne', hb1, hb2, valKeys]

/-- Witness for C8: an OAuth 2.0 scheme with all four keys passes, one
missing `scopes` fails, and a `Basic Authentication` scheme with arbitrary
settings passes. -/
theorem security_settings_required_keys_witness :
    securitySettings ⟨"OAuth 2.0", .vdict [("settings", .vdict
      [("authorizationUri", .vstr "a"), ("accessTokenUri", .vstr "b"),
       ("authorizationGrants", .vstr "c"), ("scopes", .vstr "d")])]⟩ = .ok () ∧
    securitySettings ⟨"OAuth 2.0", .vdict [("settings", .vdict
      [("authorizationUri", .vstr "a"), ("accessTokenUri", .vstr "b"),
       ("authorizationGrants", .vstr "c")])]⟩ ≠ .ok () ∧
    securitySettings ⟨"Basic Authentication", .vdict [("settings", .vdict
      [("whatever", .vstr "x")])]⟩ = .ok () := by
  refine ⟨?_, ?_, ?_⟩
  · exact ((security_settings_required_keys "OAuth 2.0"
      [("settings", .vdict
        [("authorizationUri", .vstr "a"), ("accessTokenUri", .vstr "b"),
         ("authorizationGrants", .vstr "c"), ("scopes", .vstr "d")])]).2.1
      [("authorizationUri", .vstr "a"), ("accessTokenUri", .vstr "b"),
       ("authorizationGrants", .vstr "c"), ("scopes", .vstr "d")]
      rfl rfl rfl).mpr (by simp [oauth2Attrs])
  · intro h
    have := ((security_settings_required_keys "OAuth 2.0"
      [("settings", .vdict
        [("authorizationUri", .vstr "a"), ("accessTokenUri", .vstr "b"),
         ("authorizationGrants", .vstr "c")])]).2.1
      [("authorizationUri", .vstr "a"), ("accessTokenUri", .vstr "b"),
       ("authorizationGrants", .vstr "c")]
      rfl rfl rfl).mp h
    simp [oauth2Attrs] at this
  · exact (security_settings_required_keys "Basic Authentication"
      [("settings", .vdict [("whatever", .vstr "x")])]).2.2.2
      [("whatever", .vstr "x")] rfl (by decide) (by decide)

/-!
## `__body` and `__body_media_type`

```python
def __body(resource, *args, **kw):
    if hasattr(resource, 'orig_method'):  # resource type
        body = resource.data.get(resource.orig_method, {}).get('body', {})
    if hasattr(resource, 'method'):
        if resource.data.get(resource.method) is not None:
            body = resource.data.get(resource.method, {}).get('body', {})
        else:
            body = resource.data.get('body', {})
    else:  # trait
        body = resource.data.get('body', {})
    __body_media_type(body)
```
Note the second `if` is not an `elif`: its `else` belongs to
`hasattr(resource, 'method')`, so the assignment of the first branch is
always overwritten before `__body_media_type` runs (only its potential
exceptions survive).
-/

/-- The schema/form-encoding conflict message of `__body_media_type`. -/
def schemaConflictMsg : String :=
  "\x27schema\x27 may not be specified when the body\x27s media " ++
    "type is application/x-www-form-urlencoded or multipart/form-data."

/-- The loop of `__body_media_type` over the body's key/value pairs. -/
def bodyMediaTypeList (mediaTypes : List String) :
    List (String × Val) → Except PyError Unit
  | [] => .ok ()
  | (k, v) :: rest =>
    match checkMediaType mediaTypes k with
    | .error e => .error e
    | .ok _ =>
      if k == "application/x-www-form-urlencoded" || k == "multipart/form-data" then
        match valKeys v with
        | .error e => .error e
        | .ok props =>
          if props.contains "schema" then
            .error (.invalidRaml schemaConflictMsg)
          else bodyMediaTypeList mediaTypes rest
      else bodyMediaTypeList mediaTypes rest

/-- `__body_media_type`: check every media-type key of a body mapping, and
the form-encoded/schema exclusivity rule. -/
def bodyMediaType (mediaTypes : List String) (body : Val) : Except PyError Unit :=
  match valItems body with
  | .error e => .error e
  | .ok es => bodyMediaTypeList mediaTypes es

/-- The `__body` rule, translated statement by statement (including the
first branch whose assignment is dead but whose lookups can still raise). -/
def bodyRule (mediaTypes : List String) (r : ResourceLike) : Except PyError Unit :=
  let step1 : Except PyError Unit :=
    match r.origMethod with
    | some m =>
      match pyGetD r.data m (.vdict []) with
      | .error e => .error e
      | .ok t =>
        match pyGetD t "body" (.vdict []) with
        | .error e => .error e
        | .ok _ => .ok ()
    | none => .ok ()
  match step1 with
  | .error e => .error e
  | .ok _ =>
    let bodyE : Except PyError Val :=
      match r.method with
      | some m =>
        match pyGet r.data m with
        | .error e => .error e
        | .ok v =>
          if !(isNoneVal v) then
            match pyGetD r.data m (.vdict []) with
            | .error e => .error e
            | .ok t => pyGetD t "body" (.vdict [])
          else pyGetD r.data "body" (.vdict [])
      | none => pyGetD r.data "body" (.vdict [])
    match bodyE with
    | .error e => .error e
    | .ok body => bodyMediaType mediaTypes body

/-- C3 is false of the code: on a resource-type view exposing
`orig_method` and not `method`, with `data[orig_method]['body']` holding
an invalid media type and `data['body']` empty, `__body` passes — it
validates `data['body']`, not `data[orig_method]['body']` (which
`__body_media_type` would reject, as the second conjunct shows): the
dangling `else` makes the `orig_method` assignment dead. -/
theorem body_rule_ignores_orig_method :
    bodyRule ["application/json"]
      ⟨some "get", none, "/widgets", .vnone,
        .vdict [("get", .vdict [("body", .vdict [("text/plain", .vdict [])])]),
                ("body", .vdict [])]⟩ = .ok () ∧
    bodyMediaType ["application/json"] (.vdict [("text/plain", .vdict [])]) =
      .error (.invalidRaml "Unsupported MIME Media Type: \x27text/plain\x27.") := by
  exact ⟨rfl, rfl⟩

/-!
## Frame property of the rules

To state that validation never mutates its arguments, representative rules
for each argument kind (Document, resource-like object together with the
Root reference, Security Scheme) are re-translated in state-passing style:
every Python statement that could write to the argument would show up as a
changed state component, and every exit returns the state alongside the
result. The theorem below checks that each translation returns its state
exactly as received and computes the same result as the direct embedding.
-/

/-- `__version` in state-passing style over the Document. -/
def versionRuleS (prod : Bool) (raml : RamlDoc) : Except PyError Unit × RamlDoc :=
  let v := raml.version
  if prod && !truthyOptStr v then
    (.error (.invalidRaml "RAML File does not define an API version."), raml)
  else
    match raml.baseUri with
    | none => (.error (.typeError "argument of type \x27NoneType\x27 is not iterable"), raml)
    | some b =>
      if strContains b "{version}" && !truthyOptStr v then
        (.error (.invalidRaml
          "RAML File\x27s baseUri includes {version} parameter but no version is defined."), raml)
      else
        (.ok (), raml)

/-- `__media_type` in state-passing style over the Document. -/
def mediaTypeRuleS (mediaTypes : List String) (raml : RamlDoc) :
    Except PyError Unit × RamlDoc :=
  match raml.mediaType with
  | none => (.ok (), raml)
  | some mt =>
    if mt == "" then (.ok (), raml)
    else if mediaTypes.contains mt then (.ok (), raml)
    else if mediaSearch mt.toList then (.ok (), raml)
    else
      (.error (.invalidRaml ("Unsupported MIME Media Type: \x27" ++ mt ++ "\x27.")), raml)

/-- `__set_type` in state-passing style over the resource-like object and
the Root reference. -/
def setTypeRuleS (p : ResourceLike × RootRef) :
    Except PyError Unit × (ResourceLike × RootRef) :=
  match pyGet p.1.data "type" with
  | .error e => (.error e, p)
  | .ok assigned =>
    if !truthyVal assigned then (.ok (), p)
    else
      let tooMany : Bool :=
        match assigned with
        | .vdict es => es.length > 1
        | .vlist xs => xs.length > 1
        | _ => false
      if tooMany then (.error (.invalidRaml (tooManyMsg p.1.name)), p)
      else
        let resolved := assignedResolve assigned
        if !(valInNames resolved (rtNames p.2)) then
          (.error (.invalidRaml (notDefinedMsg (valFormat resolved))), p)
        else (.ok (), p)

/-- `__security_settings` in state-passing style over the Security Scheme. -/
def securitySettingsS (scheme : SecurityScheme) :
    Except PyError Unit × SecurityScheme :=
  match pyGet scheme.data "settings" with
  | .error e => (.error e, scheme)
  | .ok settings =>
    if !truthyVal settings then (.ok (), scheme)
    else
      match valKeys settings with
      | .error e => (.error e, scheme)
      | .ok attrs =>
        match (if scheme.type == "OAuth 2.0" then
                requireAttrs attrs "OAuth 2.0" oauth2Attrs
               else .ok ()) with
        | .error e => (.error e, scheme)
        | .ok _ =>
          (if scheme.type == "OAuth 1.0" then
            requireAttrs attrs "OAuth 1.0" oauth1Attrs
          else .ok (), scheme)

/-!
## The remaining rule functions

To cover the whole rule set, the rules not needed by the other claims are
embedded here too. For these, the Document is the raw parsed mapping
(`Val`), read through `raml.get(key)` like the source; `for` loops over a
fetched value use Python iteration semantics (`pyIter`). As before, every
configured collection is modelled from the spec as a `List String`
parameter.
-/

/-- Python `for x in v` iteration: a sequence yields its elements, a
mapping its keys, a string its one-character strings; `None` is not
iterable. -/
def pyIter : Val → Except PyError (List Val)
  | .vlist xs => .ok xs
  | .vdict es => .ok (es.map (fun kv => .vstr kv.1))
  | .vstr s => .ok (s.toList.map (fun c => .vstr (String.mk [c])))
  | .vnone => .error (.typeError "\x27NoneType\x27 object is not iterable")

/-- Python `list(itervalues(d))`: the values of a mapping, in insertion
order; `AttributeError` on a non-mapping. -/
def valValues : Val → Except PyError (List Val)
  | .vdict es => .ok (es.map Prod.snd)
  | _ => .error (.attributeError "object has no attribute values")

/-- Python `s.startswith(p)`. -/
def strStarts (s p : String) : Bool :=
  p.toList.isPrefixOf s.toList

/-- One step of Python `dict(...)` construction from a pair list: an
existing key keeps its position but takes the new value, a new key is
appended. -/
def pyDictInsert (acc : List (String × Val)) (kv : String × Val) : List (String × Val) :=
  if acc.any (fun e => e.1 == kv.1) then
    acc.map (fun e => if e.1 == kv.1 then (e.1, kv.2) else e)
  else acc ++ [kv]

/-- Python `dict(pairs)`: first-occurrence order, last-occurrence value. -/
def dictFromList (l : List (String × Val)) : List (String × Val) :=
  l.foldl pyDictInsert []

/-- The `__base_uri` rule: require a truthy `baseUri`. -/
def baseUriRule (raml : Val) : Except PyError Unit :=
  match pyGet raml "baseUri" with
  | .error e => .error e
  | .ok b =>
    if !truthyVal b then
      .error (.invalidRaml "RAML File does not define the baseUri.")
    else .ok ()

/-- The `__api_title` rule: require a truthy `title`. -/
def apiTitleRule (raml : Val) : Except PyError Unit :=
  match pyGet raml "title" with
  | .error e => .error e
  | .ok t =>
    if !truthyVal t then
      .error (.invalidRaml "RAML File does not define an API title.")
    else .ok ()

/-- The loop of `__documentation`: each entry needs truthy `title` and
`content` (checked in that order). -/
def docEntriesCheck : List Val → Except PyError Unit
  | [] => .ok ()
  | d :: rest =>
    match pyGet d "title" with
    | .error e => .error e
    | .ok t =>
      if !truthyVal t then
        .error (.invalidRaml "API Documentation requires a title.")
      else
        match pyGet d "content" with
        | .error e => .error e
        | .ok c =>
          if !truthyVal c then
            .error (.invalidRaml "API Documentation requires content defined.")
          else docEntriesCheck rest

/-- The `__documentation` rule. -/
def documentationRule (raml : Val) : Except PyError Unit :=
  match pyGet raml "documentation" with
  | .error e => .error e
  | .ok docs =>
    if !truthyVal docs then .ok ()
    else
      match pyIter docs with
      | .error e => .error e
      | .ok ds => docEntriesCheck ds

/-- The loop of `__base_uri_params`: each parameter's own keys must
include `default`. -/
def baseUriParamsLoop : List (String × Val) → Except PyError Unit
  | [] => .ok ()
  | (k, v) :: rest =>
    match valKeys v with
    | .error e => .error e
    | .ok values =>
      if !(values.contains "default") then
        .error (.invalidRaml
          ("The \x27default\x27 parameter is not set for base URI parameter \x27" ++
            k ++ "\x27"))
      else baseUriParamsLoop rest

/-- The `__base_uri_params` rule. -/
def baseUriParamsRule (raml : Val) : Except PyError Unit :=
  match pyGetD raml "baseUriParameters" (.vdict []) with
  | .error e => .error e
  | .ok ps =>
    match valItems ps with
    | .error e => .error e
    | .ok es => baseUriParamsLoop es

/-- The `__schemas` rule: a no-op placeholder. -/
def schemasRule (_raml : Val) : Except PyError Unit :=
  .ok ()

/-- The loop of `__protocols`: each entry must be a configured protocol. -/
def protocolsLoop (valid : List String) : List Val → Except PyError Unit
  | [] => .ok ()
  | p :: rest =>
    if !(valInNames p valid) then
      .error (.invalidRaml
        ("\x27" ++ valFormat p ++ "\x27 not a valid protocol for a RAML-defined API."))
    else protocolsLoop valid rest

/-- The `__protocols` rule. -/
def protocolsRule (valid : List String) (raml : Val) : Except PyError Unit :=
  match pyGet raml "protocols" with
  | .error e => .error e
  | .ok ps =>
    if !truthyVal ps then .ok ()
    else
      match pyIter ps with
      | .error e => .error e
      | .ok xs => protocolsLoop valid xs

/-- `list(iterkeys(s))[0]`: the first key of a mapping (`IndexError` when
empty, `AttributeError` on a non-mapping). -/
def firstKeyOf (s : Val) : Except PyError String :=
  match valKeys s with
  | .error e => .error e
  | .ok [] => .error .indexError
  | .ok (k :: _) => .ok k

/-- The comprehension of `__security_schemes`:
`[list(iterkeys(s))[0] for s in schemes]`. -/
def schemeFirstKeys : List Val → Except PyError (List String)
  | [] => .ok []
  | s :: rest =>
    match firstKeyOf s with
    | .error e => .error e
    | .ok k =>
      match schemeFirstKeys rest with
      | .error e => .error e
      | .ok ks => .ok (k :: ks)

/-- The loop of `__security_schemes`: each name must be configured or
carry the `x-` extension marker. -/
def schemesLoop (authSchemes : List String) : List String → Except PyError Unit
  | [] => .ok ()
  | s :: rest =>
    if !(authSchemes.contains s) && !(strStarts s "x-") then
      .error (.invalidRaml ("\x27" ++ s ++ "\x27 is not a valid Security Scheme."))
    else schemesLoop authSchemes rest

/-- The `__security_schemes` rule. -/
def securitySchemesRule (authSchemes : List String) (raml : Val) : Except PyError Unit :=
  match pyGetD raml "securitySchemes" (.vdict []) with
  | .error e => .error e
  | .ok schemes =>
    match pyIter schemes with
    | .error e => .error e
    | .ok ss =>
      match schemeFirstKeys ss with
      | .error e => .error e
      | .ok names =>
        if names.isEmpty then .ok ()
        else schemesLoop authSchemes names

/-- The loop of `__uri_params`: no key may case-insensitively equal
`version`. -/
def uriParamsLoop : List String → Except PyError Unit
  | [] => .ok ()
  | k :: rest =>
    if k.toLower == "version" then
      .error (.invalidRaml "\x27version\x27 can only be defined in baseUriParameters.")
    else uriParamsLoop rest

/-- The `__uri_params` rule. -/
def uriParamsRule (raml : Val) : Except PyError Unit :=
  match pyGetD raml "uriParameters" (.vdict []) with
  | .error e => .error e
  | .ok ps =>
    match valKeys ps with
    | .error e => .error e
    | .ok ks => uriParamsLoop ks

/-- The `__has_resources` rule: the resolved resource collection must be
non-empty (`not resources or len(resources) < 1`). -/
def hasResourcesRule (resources : List Val) : Except PyError Unit :=
  if resources.isEmpty || resources.length < 1 then
    .error (.invalidRaml "No resources are defined.")
  else .ok ()

/-- The `elif`/`else` part of `__responses`'s effective-value resolution:
`orig_method` view reads `data[orig_method]['responses']`, otherwise
`data['responses']`. -/
def responsesFallback (r : ResourceLike) : Except PyError Val :=
  match r.origMethod with
  | some m =>
    match pyGetD r.data m (.vdict []) with
    | .error e => .error e
    | .ok t => pyGetD t "responses" (.vdict [])
  | none => pyGetD r.data "responses" (.vdict [])

/-- `__responses`'s effective-value resolution: the `method` view is
consulted first (`hasattr(resource, 'method') and
resource.data.get(resource.method) is not None`), then the fallback. -/
def responsesResolve (r : ResourceLike) : Except PyError Val :=
  match r.method with
  | some m =>
    match pyGet r.data m with
    | .error e => .error e
    | .ok v =>
      if !(isNoneVal v) then
        match pyGetD r.data m (.vdict []) with
        | .error e => .error e
        | .ok t => pyGetD t "responses" (.vdict [])
      else responsesFallback r
  | none => responsesFallback r

/-- The first loop of `__responses`: every response code must be
configured. -/
def codesLoop (respCodes : List String) : List String → Except PyError Unit
  | [] => .ok ()
  | c :: rest =>
    if !(respCodes.contains c) then
      .error (.invalidRaml ("\x27" ++ c ++ "\x27 not a valid response code."))
    else codesLoop respCodes rest

/-- The second loop of `__responses`: each response's `body` goes through
`__body_media_type`. -/
def respItemsLoop (mediaTypes : List String) : List Val → Except PyError Unit
  | [] => .ok ()
  | item :: rest =>
    match pyGetD item "body" (.vdict []) with
    | .error e => .error e
    | .ok body =>
      match bodyMediaType mediaTypes body with
      | .error e => .error e
      | .ok _ => respItemsLoop mediaTypes rest

/-- The `__responses` rule. -/
def responsesRule (respCodes mediaTypes : List String) (r : ResourceLike) :
    Except PyError Unit :=
  match responsesResolve r with
  | .error e => .error e
  | .ok resp =>
    match valKeys resp with
    | .error e => .error e
    | .ok codes =>
      match codesLoop respCodes codes with
      | .error e => .error e
      | .ok _ =>
        match valValues resp with
        | .error e => .error e
        | .ok items => respItemsLoop mediaTypes items

/-- The method-scoped parameter lookup shared by `__query_params`,
`__uri_params_resource` and `__form_params`: here `orig_method` is
consulted first (`elif method`, `{}` when `data[method]` is `None` or no
method view). -/
def methodParamsResolve (key : String) (r : ResourceLike) : Except PyError Val :=
  match r.origMethod with
  | some m =>
    match pyGetD r.data m (.vdict []) with
    | .error e => .error e
    | .ok t => pyGetD t key (.vdict [])
  | none =>
    match r.method with
    | some m =>
      match pyGet r.data m with
      | .error e => .error e
      | .ok v =>
        if !(isNoneVal v) then
          match pyGetD r.data m (.vdict []) with
          | .error e => .error e
          | .ok t => pyGetD t key (.vdict [])
        else .ok (.vdict [])
    | none => .ok (.vdict [])

/-- The shared body of `__query_params` / `__uri_params_resource` /
`__form_params` (the three source functions are identical up to the
property key): fetch the resource-scoped mapping, resolve the
method-scoped one, merge (`dict(method_items + resource_items)`, so
resource-scoped entries overwrite), and run the primitive-type check when
the merge is non-empty. -/
def mergedParamsRule (primTypes : List String) (key : String) (r : ResourceLike) :
    Except PyError Unit :=
  match pyGetD r.data key (.vdict []) with
  | .error e => .error e
  | .ok resourceParams =>
    match methodParamsResolve key r with
    | .error e => .error e
    | .ok methodParams =>
      match valItems methodParams with
      | .error e => .error e
      | .ok mp =>
        match valItems resourceParams with
        | .error e => .error e
        | .ok rp =>
          let params := dictFromList (mp ++ rp)
          if !params.isEmpty then primativeParameter primTypes params
          else .ok ()

/-- The `__query_params` rule. -/
def queryParamsRule (primTypes : List String) (r : ResourceLike) : Except PyError Unit :=
  mergedParamsRule primTypes "queryParameters" r

/-- The `__uri_params_resource` rule. -/
def uriParamsResourceRule (primTypes : List String) (r : ResourceLike) :
    Except PyError Unit :=
  mergedParamsRule primTypes "uriParameters" r

/-- The `__form_params` rule. -/
def formParamsRule (primTypes : List String) (r : ResourceLike) : Except PyError Unit :=
  mergedParamsRule primTypes "formParameters" r

/-- The `__headers` rule: a no-op placeholder. -/
def headersRule (_r : ResourceLike) : Except PyError Unit :=
  .ok ()

/-- The `__description` rule: a no-op placeholder. -/
def descriptionRule (_r : ResourceLike) : Except PyError Unit :=
  .ok ()

/-- The `__base_uri_params_resource` rule: a no-op placeholder. -/
def baseUriParamsResourceRule (_r : ResourceLike) : Except PyError Unit :=
  .ok ()

/-- The per-reference resolution of `__secured_by`: a mapping contributes
its first key (`list(iterkeys(s))[0]`), anything else stands for itself. -/
def securedByResolveName : Val → Except PyError Val
  | .vdict es =>
    (match es.map Prod.fst with
     | [] => .error PyError.indexError
     | k :: _ => .ok (Val.vstr k))
  | v => .ok v

/-- The loop of `__secured_by`: each resolved reference must match a
declared scheme name. -/
def securedByLoop (root : RootRef) (rname : String) : List Val → Except PyError Unit
  | [] => .ok ()
  | s :: rest =>
    match securedByResolveName s with
    | .error e => .error e
    | .ok scheme =>
      if !(valInNames scheme (root.securitySchemes.map SchemeDecl.name)) then
        .error (.invalidRaml
          ("\x27" ++ valFormat scheme ++ "\x27 is applied to \x27" ++ rname ++
            "\x27 but is not defined in the securitySchemes"))
      else securedByLoop root rname rest

/-- The `__secured_by` rule (the source reads `data.get('securedBy')`
twice: once for the guard, once for the loop). -/
def securedByRule (r : ResourceLike) (root : RootRef) : Except PyError Unit :=
  match pyGet r.data "securedBy" with
  | .error e => .error e
  | .ok sb =>
    if !truthyVal sb then .ok ()
    else if root.securitySchemes.isEmpty then
      .error (.invalidRaml
        ("No Security Schemes are defined in RAML file but " ++ valFormat sb ++
          " scheme is assigned to \x27" ++ r.name ++ "\x27."))
    else
      match pyGet r.data "securedBy" with
      | .error e => .error e
      | .ok sb2 =>
        match pyIter sb2 with
        | .error e => .error e
        | .ok ss => securedByLoop root r.name ss

/-!
## Frame property: state-passing translations of every rule

As for the four rules above, each remaining rule function is re-translated
in state-passing style over the argument the claim protects (the parsed
Document, the source file, the resource-like object — paired with the
Root reference where the rule receives it —, the Security Scheme, the
resource collection, the parameter mapping, the body value): every exit
returns the state alongside the result, so a Python statement writing to
the argument would surface as a changed state component.
-/

/-- `__base_uri` in state-passing style. -/
def baseUriRuleS (raml : Val) : Except PyError Unit × Val :=
  match pyGet raml "baseUri" with
  | .error e => (.error e, raml)
  | .ok b =>
    if !truthyVal b then
      (.error (.invalidRaml "RAML File does not define the baseUri."), raml)
    else (.ok (), raml)

/-- `__api_title` in state-passing style. -/
def apiTitleRuleS (raml : Val) : Except PyError Unit × Val :=
  match pyGet raml "title" with
  | .error e => (.error e, raml)
  | .ok t =>
    if !truthyVal t then
      (.error (.invalidRaml "RAML File does not define an API title."), raml)
    else (.ok (), raml)

/-- `__documentation` in state-passing style. -/
def documentationRuleS (raml : Val) : Except PyError Unit × Val :=
  match pyGet raml "documentation" with
  | .error e => (.error e, raml)
  | .ok docs =>
    if !truthyVal docs then (.ok (), raml)
    else
      match pyIter docs with
      | .error e => (.error e, raml)
      | .ok ds => (docEntriesCheck ds, raml)

/-- `__base_uri_params` in state-passing style. -/
def baseUriParamsRuleS (raml : Val) : Except PyError Unit × Val :=
  match pyGetD raml "baseUriParameters" (.vdict []) with
  | .error e => (.error e, raml)
  | .ok ps =>
    match valItems ps with
    | .error e => (.error e, raml)
    | .ok es => (baseUriParamsLoop es, raml)

/-- `__schemas` in state-passing style. -/
def schemasRuleS (raml : Val) : Except PyError Unit × Val :=
  (.ok (), raml)

/-- `__protocols` in state-passing style. -/
def protocolsRuleS (valid : List String) (raml : Val) : Except PyError Unit × Val :=
  match pyGet raml "protocols" with
  | .error e => (.error e, raml)
  | .ok ps =>
    if !truthyVal ps then (.ok (), raml)
    else
      match pyIter ps with
      | .error e => (.error e, raml)
      | .ok xs => (protocolsLoop valid xs, raml)

/-- `__security_schemes` in state-passing style. -/
def securitySchemesRuleS (authSchemes : List String) (raml : Val) :
    Except PyError Unit × Val :=
  match pyGetD raml "securitySchemes" (.vdict []) with
  | .error e => (.error e, raml)
  | .ok schemes =>
    match pyIter schemes with
    | .error e => (.error e, raml)
    | .ok ss =>
      match schemeFirstKeys ss with
      | .error e => (.error e, raml)
      | .ok names =>
        if names.isEmpty then (.ok (), raml)
        else (schemesLoop authSchemes names, raml)

/-- `__uri_params` in state-passing style. -/
def uriParamsRuleS (raml : Val) : Except PyError Unit × Val :=
  match pyGetD raml "uriParameters" (.vdict []) with
  | .error e => (.error e, raml)
  | .ok ps =>
    match valKeys ps with
    | .error e => (.error e, raml)
    | .ok ks => (uriParamsLoop ks, raml)

/-- `__raml_header` in state-passing style over the file's lines. -/
def ramlHeaderS (versions : List String) (file : List String) :
    Except PyError Unit × List String :=
  match file with
  | [] => (.error (.invalidRaml "RAML File is empty"), file)
  | first :: rest =>
    if first == "" then
      (.error (.invalidRaml
        ("RAML header empty. Please make sure the first line " ++
         "of the file contains a valid RAML file definition.")), file)
    else
      match pySplitWs first with
      | [ramlDef, version] =>
        if !(ramlDef == "#%RAML") then
          (.error (.invalidRaml ("Not a valid RAML header: " ++ ramlDef ++ ".")), file)
        else if !(versions.contains version) then
          (.error (.invalidRaml ("Not a valid version of RAML: " ++ version ++ ".")), file)
        else if rest.isEmpty then
          (.error (.invalidRaml "No RAML data to parse."), file)
        else
          (.ok (), file)
      | _ => (.error (.invalidRaml ("Not a valid RAML header: " ++ first ++ ".")), file)

/-- `__responses` in state-passing style. -/
def responsesRuleS (respCodes mediaTypes : List String) (r : ResourceLike) :
    Except PyError Unit × ResourceLike :=
  match responsesResolve r with
  | .error e => (.error e, r)
  | .ok resp =>
    match valKeys resp with
    | .error e => (.error e, r)
    | .ok codes =>
      match codesLoop respCodes codes with
      | .error e => (.error e, r)
      | .ok _ =>
        match valValues resp with
        | .error e => (.error e, r)
        | .ok items => (respItemsLoop mediaTypes items, r)

/-- The shared parameter rule in state-passing style. -/
def mergedParamsRuleS (primTypes : List String) (key : String) (r : ResourceLike) :
    Except PyError Unit × ResourceLike :=
  match pyGetD r.data key (.vdict []) with
  | .error e => (.error e, r)
  | .ok resourceParams =>
    match methodParamsResolve key r with
    | .error e => (.error e, r)
    | .ok methodParams =>
      match valItems methodParams with
      | .error e => (.error e, r)
      | .ok mp =>
        match valItems resourceParams with
        | .error e => (.error e, r)
        | .ok rp =>
          let params := dictFromList (mp ++ rp)
          if !params.isEmpty then (primativeParameter primTypes params, r)
          else (.ok (), r)

/-- `__query_params` in state-passing style. -/
def queryParamsRuleS (primTypes : List String) (r : ResourceLike) :
    Except PyError Unit × ResourceLike :=
  mergedParamsRuleS primTypes "queryParameters" r

/-- `__uri_params_resource` in state-passing style. -/
def uriParamsResourceRuleS (primTypes : List String) (r : ResourceLike) :
    Except PyError Unit × ResourceLike :=
  mergedParamsRuleS primTypes "uriParameters" r

/-- `__form_params` in state-passing style. -/
def formParamsRuleS (primTypes : List String) (r : ResourceLike) :
    Except PyError Unit × ResourceLike :=
  mergedParamsRuleS primTypes "formParameters" r

/-- `__headers` in state-passing style. -/
def headersRuleS (r : ResourceLike) : Except PyError Unit × ResourceLike :=
  (.ok (), r)

/-- `__description` in state-passing style. -/
def descriptionRuleS (r : ResourceLike) : Except PyError Unit × ResourceLike :=
  (.ok (), r)

/-- `__base_uri_params_resource` in state-passing style. -/
def baseUriParamsResourceRuleS (r : ResourceLike) : Except PyError Unit × ResourceLike :=
  (.ok (), r)

/-- `__body` in state-passing style. -/
def bodyRuleS (mediaTypes : List String) (r : ResourceLike) :
    Except PyError Unit × ResourceLike :=
  let step1 : Except PyError Unit :=
    match r.origMethod with
    | some m =>
      match pyGetD r.data m (.vdict []) with
      | .error e => .error e
      | .ok t =>
        match pyGetD t "body" (.vdict []) with
        | .error e => .error e
        | .ok _ => .ok ()
    | none => .ok ()
  match step1 with
  | .error e => (.error e, r)
  | .ok _ =>
    let bodyE : Except PyError Val :=
      match r.method with
      | some m =>
        match pyGet r.data m with
        | .error e => .error e
        | .ok v =>
          if !(isNoneVal v) then
            match pyGetD r.data m (.vdict []) with
            | .error e => .error e
            | .ok t => pyGetD t "body" (.vdict [])
          else pyGetD r.data "body" (.vdict [])
      | none => pyGetD r.data "body" (.vdict [])
    match bodyE with
    | .error e => (.error e, r)
    | .ok body => (bodyMediaType mediaTypes body, r)

/-- `__resource_type` in state-passing style over the resource-like object
and the Root reference. -/
def resourceTypeRuleS (p : ResourceLike × RootRef) :
    Except PyError Unit × (ResourceLike × RootRef) :=
  if !truthyVal p.1.type then (.ok (), p)
  else
    let tooMany : Bool :=
      match p.1.type with
      | .vdict es => es.length > 1
      | .vlist xs => xs.length > 1
      | _ => false
    if tooMany then (.error (.invalidRaml (tooManyMsg p.1.name)), p)
    else
      let resolved := assignedResolve p.1.type
      if !(valInNames resolved (rtNames p.2)) then
        (.error (.invalidRaml (notDefinedMsg (valFormat resolved))), p)
      else (.ok (), p)

/-- `__secured_by` in state-passing style over the resource-like object
and the Root reference. -/
def securedByRuleS (p : ResourceLike × RootRef) :
    Except PyError Unit × (ResourceLike × RootRef) :=
  match pyGet p.1.data "securedBy" with
  | .error e => (.error e, p)
  | .ok sb =>
    if !truthyVal sb then (.ok (), p)
    else if p.2.securitySchemes.isEmpty then
      (.error (.invalidRaml
        ("No Security Schemes are defined in RAML file but " ++ valFormat sb ++
          " scheme is assigned to \x27" ++ p.1.name ++ "\x27.")), p)
    else
      match pyGet p.1.data "securedBy" with
      | .error e => (.error e, p)
      | .ok sb2 =>
        match pyIter sb2 with
        | .error e => (.error e, p)
        | .ok ss => (securedByLoop p.2 p.1.name ss, p)

/-- `__has_resources` in state-passing style. -/
def hasResourcesRuleS (resources : List Val) : Except PyError Unit × List Val :=
  if resources.isEmpty || resources.length < 1 then
    (.error (.invalidRaml "No resources are defined."), resources)
  else (.ok (), resources)

/-- `__primative_parameter` in state-passing style. -/
def primativeParameterS (primTypes : List String) (parameter : List (String × Val)) :
    Except PyError Unit × List (String × Val) :=
  match parameter with
  | [] => (.error .indexError, parameter)
  | (_, v) :: _ =>
    match pyGet v "type" with
    | .error e => (.error e, parameter)
    | .ok primType =>
      if !(valInNames primType primTypes) && !(isNoneVal primType) then
        (.error (.invalidRaml
          ("\x27" ++ valFormat primType ++ "\x27 is not a valid primative parameter type")),
         parameter)
      else (.ok (), parameter)

/-- `__check_media_type` in state-passing style. -/
def checkMediaTypeS (mediaTypes : List String) (mt : String) :
    Except PyError Unit × String :=
  if mediaTypes.contains mt then (.ok (), mt)
  else if mt == "schema" || mt == "example" then (.ok (), mt)
  else if mediaSearch mt.toList then (.ok (), mt)
  else
    (.error (.invalidRaml ("Unsupported MIME Media Type: \x27" ++ mt ++ "\x27.")), mt)

/-- `__body_media_type` in state-passing style. -/
def bodyMediaTypeS (mediaTypes : List String) (body : Val) :
    Except PyError Unit × Val :=
  match valItems body with
  | .error e => (.error e, body)
  | .ok es => (bodyMediaTypeList mediaTypes es, body)

/-- `baseUriRuleS` returns its state unchanged with the direct result. -/
theorem baseUriRuleS_eq (raml : Val) : baseUriRuleS raml = (baseUriRule raml, raml) := by
  simp only [baseUriRuleS, baseUriRule]
  repeat' (first | rfl | split)

/-- `apiTitleRuleS` returns its state unchanged with the direct result. -/
theorem apiTitleRuleS_eq (raml : Val) : apiTitleRuleS raml = (apiTitleRule raml, raml) := by
  simp only [apiTitleRuleS, apiTitleRule]
  repeat' (first | rfl | split)

/-- `documentationRuleS` returns its state unchanged with the direct result. -/
theorem documentationRuleS_eq (raml : Val) :
    documentationRuleS raml = (documentationRule raml, raml) := by
  simp only [documentationRuleS, documentationRule]
  repeat' (first | rfl | split)

/-- `baseUriParamsRuleS` returns its state unchanged with the direct result. -/
theorem baseUriParamsRuleS_eq (raml : Val) :
    baseUriParamsRuleS raml = (baseUriParamsRule raml, raml) := by
  simp only [baseUriParamsRuleS, baseUriParamsRule]
  repeat' (first | rfl | split)

/-- `protocolsRuleS` returns its state unchanged with the direct result. -/
theorem protocolsRuleS_eq (valid : List String) (raml : Val) :
    protocolsRuleS valid raml = (protocolsRule valid raml, raml) := by
  simp only [protocolsRuleS, protocolsRule]
  repeat' (first | rfl | split)

/-- `securitySchemesRuleS` returns its state unchanged with the direct result. -/
theorem securitySchemesRuleS_eq (authSchemes : List String) (raml : Val) :
    securitySchemesRuleS authSchemes raml = (securitySchemesRule authSchemes raml, raml) := by
  simp only [securitySchemesRuleS, securitySchemesRule]
  repeat' (first | rfl | split)

/-- `uriParamsRuleS` returns its state unchanged with the direct result. -/
theorem uriParamsRuleS_eq (raml : Val) :
    uriParamsRuleS raml = (uriParamsRule raml, raml) := by
  simp only [uriParamsRuleS, uriParamsRule]
  repeat' (first | rfl | split)

/-- `ramlHeaderS` returns its state unchanged with the direct result. -/
theorem ramlHeaderS_eq (versions : List String) (file : List String) :
    ramlHeaderS versions file = (ramlHeader versions file, file) := by
  simp only [ramlHeaderS, ramlHeader]
  repeat' (first | rfl | split)

/-- `responsesRuleS` returns its state unchanged with the direct result. -/
theorem responsesRuleS_eq (respCodes mediaTypes : List String) (r : ResourceLike) :
    responsesRuleS respCodes mediaTypes r = (responsesRule respCodes mediaTypes r, r) := by
  simp only [responsesRuleS, responsesRule]
  repeat' (first | rfl | split)

/-- `mergedParamsRuleS` returns its state unchanged with the direct result. -/
theorem mergedParamsRuleS_eq (primTypes : List String) (key : String) (r : ResourceLike) :
    mergedParamsRuleS primTypes key r = (mergedParamsRule primTypes key r, r) := by
  simp only [mergedParamsRuleS, mergedParamsRule]
  repeat' (first | rfl | split)

/-- `bodyRuleS` returns its state unchanged with the direct result. -/
theorem bodyRuleS_eq (mediaTypes : List String) (r : ResourceLike) :
    bodyRuleS mediaTypes r = (bodyRule mediaTypes r, r) := by
  simp only [bodyRuleS, bodyRule]
  repeat' (first | rfl | split)

/-- `resourceTypeRuleS` returns its state unchanged with the direct result. -/
theorem resourceTypeRuleS_eq (p : ResourceLike × RootRef) :
    resourceTypeRuleS p = (resourceTypeRule p.1 p.2, p) := by
  simp only [resourceTypeRuleS, resourceTypeRule]
  repeat' (first | rfl | split)

/-- `securedByRuleS` returns its state unchanged with the direct result. -/
theorem securedByRuleS_eq (p : ResourceLike × RootRef) :
    securedByRuleS p = (securedByRule p.1 p.2, p) := by
  simp only [securedByRuleS, securedByRule]
  repeat' (first | rfl | split)

/-- `primativeParameterS` returns its state unchanged with the direct result. -/
theorem primativeParameterS_eq (primTypes : List String)
    (parameter : List (String × Val)) :
    primativeParameterS primTypes parameter =
      (primativeParameter primTypes parameter, parameter) := by
  simp only [primativeParameterS, primativeParameter]
  repeat' (first | rfl | split)

/-- `checkMediaTypeS` returns its state unchanged with the direct result. -/
theorem checkMediaTypeS_eq (mediaTypes : List String) (mt : String) :
    checkMediaTypeS mediaTypes mt = (checkMediaType mediaTypes mt, mt) := by
  simp only [checkMediaTypeS, checkMediaType]
  repeat' (first | rfl | split)

/-- `bodyMediaTypeS` returns its state unchanged with the direct result. -/
theorem bodyMediaTypeS_eq (mediaTypes : List String) (body : Val) :
    bodyMediaTypeS mediaTypes body = (bodyMediaType mediaTypes body, body) := by
  simp only [bodyMediaTypeS, bodyMediaType]
  repeat' (first | rfl | split)

/-- `hasResourcesRuleS` returns its state unchanged with the direct result. -/
theorem hasResourcesRuleS_eq (resources : List Val) :
    hasResourcesRuleS resources = (hasResourcesRule resources, resources) := by
  simp only [hasResourcesRuleS, hasResourcesRule]
  repeat' (first | rfl | split)

/-- C9: every rule function, re-translated in state-passing style over the
argument state it receives (parsed Document, source file, resource-like
object — paired with the Root reference where the rule takes one — ,
Security Scheme, resource collection, parameter mapping, body mapping,
media-type value), returns that state exactly as received on every input,
returning or raising, and agrees with the direct embedding: validation
performs no mutation. Covers `__base_uri`, `__version`, `__raml_header`,
`__api_title`, `__documentation`, `__base_uri_params`, `__schemas`,
`__protocols`, `__media_type`, `__security_schemes`, `__uri_params`,
`__responses`, `__query_params`, `__uri_params_resource`, `__form_params`
(all three via their shared body), `__headers`, `__body`, `__description`,
`__base_uri_params_resource`, `__set_type`, `__resource_type`,
`__secured_by`, `__security_settings`, `__has_resources`,
`__primative_parameter`, `__check_media_type` and `__body_media_type`. -/
theorem rules_preserve_state :
    (∀ raml : Val, baseUriRuleS raml = (baseUriRule raml, raml)) ∧
    (∀ (prod : Bool) (d : RamlDoc), versionRuleS prod d = (versionRule d prod, d)) ∧
    (∀ (versions : List String) (file : List String),
      ramlHeaderS versions file = (ramlHeader versions file, file)) ∧
    (∀ raml : Val, apiTitleRuleS raml = (apiTitleRule raml, raml)) ∧
    (∀ raml : Val, documentationRuleS raml = (documentationRule raml, raml)) ∧
    (∀ raml : Val, baseUriParamsRuleS raml = (baseUriParamsRule raml, raml)) ∧
    (∀ raml : Val, schemasRuleS raml = (schemasRule raml, raml)) ∧
    (∀ (valid : List String) (raml : Val),
      protocolsRuleS valid raml = (protocolsRule valid raml, raml)) ∧
    (∀ (mts : List String) (d : RamlDoc),
      mediaTypeRuleS mts d = (mediaTypeRule mts d, d)) ∧
    (∀ (authSchemes : List String) (raml : Val),
      securitySchemesRuleS authSchemes raml =
        (securitySchemesRule authSchemes raml, raml)) ∧
    (∀ raml : Val, uriParamsRuleS raml = (uriParamsRule raml, raml)) ∧
    (∀ (respCodes mediaTypes : List String) (r : ResourceLike),
      responsesRuleS respCodes mediaTypes r =
        (responsesRule respCodes mediaTypes r, r)) ∧
    (∀ (primTypes : List String) (key : String) (r : ResourceLike),
      mergedParamsRuleS primTypes key r = (mergedParamsRule primTypes key r, r)) ∧
    (∀ (primTypes : List String) (r : ResourceLike),
      queryParamsRuleS primTypes r = (queryParamsRule primTypes r, r)) ∧
    (∀ (primTypes : List String) (r : ResourceLike),
      uriParamsResourceRuleS primTypes r = (uriParamsResourceRule primTypes r, r)) ∧
    (∀ (primTypes : List String) (r : ResourceLike),
      formParamsRuleS primTypes r = (formParamsRule primTypes r, r)) ∧
    (∀ r : ResourceLike, headersRuleS r = (headersRule r, r)) ∧
    (∀ (mediaTypes : List String) (r : ResourceLike),
      bodyRuleS mediaTypes r = (bodyRule mediaTypes r, r)) ∧
    (∀ r : ResourceLike, descriptionRuleS r = (descriptionRule r, r)) ∧
    (∀ r : ResourceLike,
      baseUriParamsResourceRuleS r = (baseUriParamsResourceRule r, r)) ∧
    (∀ p : ResourceLike × RootRef, setTypeRuleS p = (setTypeRule p.1 p.2, p)) ∧
    (∀ p : ResourceLike × RootRef, resourceTypeRuleS p = (resourceTypeRule p.1 p.2, p)) ∧
    (∀ p : ResourceLike × RootRef, securedByRuleS p = (securedByRule p.1 p.2, p)) ∧
    (∀ s : SecurityScheme, securitySettingsS s = (securitySettings s, s)) ∧
    (∀ resources : List Val,
      hasResourcesRuleS resources = (hasResourcesRule resources, resources)) ∧
    (∀ (primTypes : List String) (parameter : List (String × Val)),
      primativeParameterS primTypes parameter =
        (primativeParameter primTypes parameter, parameter)) ∧
    (∀ (mediaTypes : List String) (mt : String),
      checkMediaTypeS mediaTypes mt = (checkMediaType mediaTypes mt, mt)) ∧
    (∀ (mediaTypes : List String) (body : Val),
      bodyMediaTypeS mediaTypes body = (bodyMediaType mediaTypes body, body)) := by
  refine ⟨baseUriRuleS_eq, ?_, ramlHeaderS_eq, apiTitleRuleS_eq, documentationRuleS_eq,
    baseUriParamsRuleS_eq, fun _ => rfl, protocolsRuleS_eq, ?_, securitySchemesRuleS_eq,
    uriParamsRuleS_eq, responsesRuleS_eq, mergedParamsRuleS_eq,
    fun pts r => mergedParamsRuleS_eq pts "queryParameters" r,
    fun pts r => mergedParamsRuleS_eq pts "uriParameters" r,
    fun pts r => mergedParamsRuleS_eq pts "formParameters" r,
    fun _ => rfl, bodyRuleS_eq, fun _ => rfl, fun _ => rfl, ?_, resourceTypeRuleS_eq,
    securedByRuleS_eq, ?_, hasResourcesRuleS_eq, primativeParameterS_eq, checkMediaTypeS_eq,
    bodyMediaTypeS_eq⟩
  · intro prod d
    simp only [versionRuleS, versionRule]
    repeat' (first | rfl | split)
  · intro mts d
    simp only [mediaTypeRuleS, mediaTypeRule]
    repeat' (first | rfl | split)
  · intro p
    simp only [setTypeRuleS, setTypeRule]
    repeat' (first | rfl | split)
  · intro s
    simp only [securitySettingsS, securitySettings]
    repeat' (first | rfl | split)
